import Mathlib

/-!
Shallow embedding of `src/Mini_player.py` (class `MiniPlayer`), a PyQt5/VLC
mini player whose poll tick (`update_ui`, fired every 10 ms by a timer)
refreshes the status bar and then performs one non-blocking dequeue from a
cross-thread queue, seeking both players to the dequeued timestamp when their
current position differs from it.

Modelling choices:
- A VLC player handle is reduced to the two observables the code reads:
  `get_time()` (position in ms, an `Int`) and `is_playing()` (a `Bool`).
  `set_time(v)` is modelled as setting the position to `v`.
- The `queue.Queue` is a FIFO `List` whose head is the next element
  `get(block=False)` returns; `queue.Empty` corresponds to the empty list.
- Queue elements are `PyVal` (Python values the producer may enqueue);
  `val = int(val)` on line 143 is modelled by `pyIntOf`, which is `some` on
  the values Python's `int()` accepts here and `none` when `int()` raises.
- Seek calls are recorded in the tick's result (`videoSeek`/`audioSeek`:
  `some t` when `set_time(t)` was issued, `none` when not), so "a seek call
  was issued" is directly observable.
-/

namespace MiniPlayer

/-- A value the external producer may place on `data_queue`: a Python int,
float (any Python float is a rational number; `num`/`den` in lowest terms
is enough for `int()`-truncation), or string. -/
inductive PyVal where
  | vint : Int → PyVal
  | vfloat : Rat → PyVal
  | vstr : String → PyVal
deriving DecidableEq, Repr

/-- Python's `int(val)` as applied on line 143: identity on ints, truncation
toward zero on floats, decimal parse on strings (plain optionally-signed
decimal forms); `none` models the `ValueError`/`TypeError` raise. -/
def pyIntOf : PyVal → Option Int
  | .vint n => some n
  | .vfloat q => some (Int.tdiv q.num (q.den : Int))
  | .vstr s => s.toInt?

/-- The observable state of one `vlc.MediaPlayer` handle during polling:
`position` is what `get_time()` returns (ms), `playing` what `is_playing()`
returns. -/
structure PlayerState where
  position : Int
  playing : Bool
deriving DecidableEq, Repr

/-- The state of the `MiniPlayer` window that `update_ui`/`update_statusbar`
read and write: the two player handles, the status-bar message, and the
contents of `data_queue` (head = next value dequeued). -/
structure AppState where
  video : PlayerState
  audio : PlayerState
  status : String
  queue : List PyVal
deriving DecidableEq, Repr

/-- Two-digit zero-padded decimal, as in Qt's default time format. -/
def pad2 (n : Nat) : String :=
  if n < 10 then "0" ++ toString n else toString n

/-- `QTime(0, 0, 0, 0).addMSecs(ms).toString()`: `addMSecs` wraps within a
24-hour day, `toString()` renders `hh:mm:ss` zero-padded. `Int.emod` by
`86400000` is non-negative, matching Qt's wrap-around for negative offsets. -/
def msToString (ms : Int) : String :=
  let t := (ms % 86400000).toNat
  pad2 (t / 3600000) ++ ":" ++ pad2 (t / 60000 % 60) ++ ":" ++ pad2 (t / 1000 % 60)

/-- Lines 149-157. Shows "Video: <position>" when the video player is
playing, else "Audio: <position>" when the audio player is playing, else
leaves the status message unchanged. Only the status line is written;
players and queue are untouched. -/
def update_statusbar (s : AppState) : AppState :=
  if s.video.playing then
    { s with status := "Video: " ++ msToString s.video.position }
  else if s.audio.playing then
    { s with status := "Audio: " ++ msToString s.audio.position }
  else
    s

/-- The outcome of one `update_ui` tick: the post-tick state, the `set_time`
call issued to each player (`some t` = `set_time(t)` was called), and
whether `int(val)` raised (line 143), aborting the tick after the dequeue. -/
structure TickResult where
  state : AppState
  videoSeek : Option Int
  audioSeek : Option Int
  errored : Bool
deriving DecidableEq, Repr

/-- Lines 135-147, one poll tick. `update_statusbar` runs first (it writes
only the status line, so the queue and the positions read afterwards are
those of `s`). Then one non-blocking `get`: on `queue.Empty` the tick
returns. Otherwise `val = int(val)`; if that raises, the tick aborts with
the value already dequeued. Otherwise the video seek fires iff
`val != video.get_time()`, and then the audio seek fires iff
`val != audio.get_time()` — two independent `if`s, in that order. -/
def update_ui (s : AppState) : TickResult :=
  let s1 := update_statusbar s
  match s.queue with
  | [] => ⟨s1, none, none, false⟩
  | v :: rest =>
    let s2 : AppState := { s1 with queue := rest }
    match pyIntOf v with
    | none => ⟨s2, none, none, true⟩
    | some val =>
      let step3 : AppState × Option Int :=
        if val ≠ s.video.position then
          ({ s2 with video := { s2.video with position := val } }, some val)
        else
          (s2, none)
      let step4 : AppState × Option Int :=
        if val ≠ s.audio.position then
          ({ step3.1 with audio := { step3.1.audio with position := val } }, some val)
        else
          (step3.1, none)
      ⟨step4.1, step3.2, step4.2, false⟩

/-- The value of `platform.system()`: the three systems the code dispatches
on (lines 121-129), and `other` for any other return value, which matches
none of the `if`/`elif` branches. -/
inductive HostOS where
  | linux | windows | darwin | other
deriving DecidableEq, Repr

/-- `"{}".format(x)` for `x` a string or `None` (what `get_meta(0)` returns):
`None` formats as the text `"None"`. -/
def pyFormat : Option String → String
  | none => "None"
  | some t => t

/-- State mutated by `open_files`: the media bound to each player
(`set_media`, lines 105-110 — media creation and binding collapse to the
bound path), whether each media's metadata was parsed (lines 113-114), the
window title (line 117), the rendering surface each player is attached to
(lines 121-129, the `winId` passed to `set_xwindow`/`set_hwnd`/
`set_nsobject`), and whether `play()` was issued (lines 132-133). -/
structure MediaState where
  video_media : Option String
  audio_media : Option String
  video_parsed : Bool
  audio_parsed : Bool
  window_title : String
  video_surface : Option Int
  audio_surface : Option Int
  video_started : Bool
  audio_started : Bool
deriving DecidableEq, Repr

/-- The fresh state after `__init__` lines 42-56: no media bound, nothing
parsed or attached, title "Mini Player", nothing playing. -/
def initMediaState : MediaState :=
  ⟨none, none, false, false, "Mini Player", none, none, false, false⟩

/-- Lines 91-133. `filename_video`/`filename_audio` are the paths the two
`getOpenFileName` dialogs return (`""` on cancel — the code tests
`not filename_video[0]`, and a string is falsy exactly when empty).
`meta0` maps a media path to its title metadata (`get_meta(0)`, a string or
`None`); `winId` is `int(self.videoframe.winId())`. On either cancel the
method returns before touching any state. Otherwise it binds both media,
parses both, sets the window title from the video title metadata, attaches
both players to the frame's surface on the three dispatched platforms (no
branch runs on `other`), and plays both. -/
def open_files (host : HostOS) (winId : Int) (meta0 : String → Option String)
    (filename_video filename_audio : String) (s : MediaState) : MediaState :=
  if filename_video = "" then s
  else if filename_audio = "" then s
  else
    let s1 : MediaState :=
      { s with video_media := some filename_video
               audio_media := some filename_audio }
    let s2 : MediaState := { s1 with video_parsed := true, audio_parsed := true }
    let s3 : MediaState := { s2 with window_title := pyFormat (meta0 filename_video) }
    let s4 : MediaState :=
      match host with
      | .linux => { s3 with video_surface := some winId, audio_surface := some winId }
      | .windows => { s3 with video_surface := some winId, audio_surface := some winId }
      | .darwin => { s3 with video_surface := some winId, audio_surface := some winId }
      | .other => s3
    { s4 with video_started := true, audio_started := true }

/-! ### Helper lemmas -/

theorem update_statusbar_video (s : AppState) :
    (update_statusbar s).video = s.video := by
  unfold update_statusbar; split_ifs <;> rfl

theorem update_statusbar_audio (s : AppState) :
    (update_statusbar s).audio = s.audio := by
  unfold update_statusbar; split_ifs <;> rfl

theorem update_statusbar_queue (s : AppState) :
    (update_statusbar s).queue = s.queue := by
  unfold update_statusbar; split_ifs <;> rfl

theorem update_ui_status (s : AppState) :
    (update_ui s).state.status = (update_statusbar s).status := by
  rcases hq : s.queue with _ | ⟨v, rest⟩
  · simp [update_ui, hq]
  · rcases hv : pyIntOf v with _ | t
    · simp [update_ui, hq, hv]
    · simp [update_ui, hq, hv]
      split_ifs <;> rfl

theorem update_ui_cons (s : AppState) (v : PyVal) (rest : List PyVal) (t : Int)
    (hq : s.queue = v :: rest) (hv : pyIntOf v = some t) :
    update_ui s =
      ⟨⟨(if t = s.video.position then s.video else ⟨t, s.video.playing⟩),
        (if t = s.audio.position then s.audio else ⟨t, s.audio.playing⟩),
        (update_statusbar s).status, rest⟩,
       (if t = s.video.position then none else some t),
       (if t = s.audio.position then none else some t),
       false⟩ := by
  obtain ⟨⟨vp, vpl⟩, ⟨ap, apl⟩, st, q⟩ := s
  have hq' : q = v :: rest := hq
  subst hq'
  by_cases h1 : t = vp <;> by_cases h2 : t = ap
  · subst h1; subst h2
    simp [update_ui, hv, update_statusbar_video, update_statusbar_audio]
  · subst h1
    simp [update_ui, hv, h2, update_statusbar_video, update_statusbar_audio]
  · subst h2
    simp [update_ui, hv, h1, update_statusbar_video, update_statusbar_audio]
  · simp [update_ui, hv, h1, h2, update_statusbar_video, update_statusbar_audio]

theorem open_files_cancelled (host : HostOS) (winId : Int)
    (meta0 : String → Option String) (fv fa : String) (s : MediaState)
    (h : fv = "" ∨ fa = "") :
    open_files host winId meta0 fv fa s = s := by
  rcases h with h | h <;> unfold open_files <;> split_ifs <;> simp_all

/-! ### Claim theorems -/

/-- C2: a poll tick that finds the queue empty issues no `set_time` call to
either player, leaves both players' positions unchanged, and treats the
empty queue as a normal no-op rather than an error. -/
theorem empty_queue_tick_is_noop (s : AppState) (h : s.queue = []) :
    (update_ui s).videoSeek = none ∧ (update_ui s).audioSeek = none ∧
    (update_ui s).state.video.position = s.video.position ∧
    (update_ui s).state.audio.position = s.audio.position ∧
    (update_ui s).errored = false := by
  simp [update_ui, h, update_statusbar_video, update_statusbar_audio]

/-- C2 witness: concrete tick on an empty queue. -/
theorem empty_queue_tick_is_noop_witness :
    (⟨⟨120, true⟩, ⟨120, true⟩, "Ready", []⟩ : AppState).queue = [] ∧
    ((update_ui ⟨⟨120, true⟩, ⟨120, true⟩, "Ready", []⟩).videoSeek = none ∧
     (update_ui ⟨⟨120, true⟩, ⟨120, true⟩, "Ready", []⟩).audioSeek = none ∧
     (update_ui ⟨⟨120, true⟩, ⟨120, true⟩, "Ready", []⟩).state.video.position = 120 ∧
     (update_ui ⟨⟨120, true⟩, ⟨120, true⟩, "Ready", []⟩).state.audio.position = 120 ∧
     (update_ui ⟨⟨120, true⟩, ⟨120, true⟩, "Ready", []⟩).errored = false) :=
  ⟨rfl, empty_queue_tick_is_noop ⟨⟨120, true⟩, ⟨120, true⟩, "Ready", []⟩ rfl⟩

/-- C3: every poll tick removes at most one item from the queue — exactly
the head when the queue is non-empty, nothing when it is empty — so the
remaining items are the untouched tail, in FIFO order. -/
theorem tick_drains_at_most_one (s : AppState) :
    (update_ui s).state.queue = s.queue.tail := by
  rcases hq : s.queue with _ | ⟨v, rest⟩
  · simp [update_ui, hq, update_statusbar_queue]
  · rcases hv : pyIntOf v with _ | t
    · simp [update_ui, hq, hv]
    · simp [update_ui, hq, hv]
      split_ifs <;> rfl

/-- C5: on every poll tick the status line becomes "Video: " ++ formatted
video position whenever the video player is playing (regardless of the
audio player's state), else "Audio: " ++ formatted audio position when the
audio player is playing, else the previous message is kept. -/
theorem tick_status_line_selection (s : AppState) :
    (update_ui s).state.status =
      (if s.video.playing then "Video: " ++ msToString s.video.position
       else if s.audio.playing then "Audio: " ++ msToString s.audio.position
       else s.status) := by
  rw [update_ui_status]
  unfold update_statusbar
  split_ifs <;> rfl

/-- C10: the status-line refresh runs before the queue is polled: the
status after any tick — including ticks with an empty queue and ticks that
seek — is exactly what `update_statusbar` computes from the pre-tick state,
i.e. from the players' positions as read before any seek is applied. -/
theorem status_refresh_before_queue_poll (s : AppState) :
    (update_ui s).state.status = (update_statusbar s).status := by
  rcases hq : s.queue with _ | ⟨v, rest⟩
  · simp [update_ui, hq]
  · rcases hv : pyIntOf v with _ | t
    · simp [update_ui, hq, hv]
    · simp [update_ui, hq, hv]
      split_ifs <;> rfl

/-- C1: on a tick that dequeues the integer `t`, the video seek fires iff
the video position differs from `t`, and — independently, on the same
tick — the audio seek fires iff the audio position differs from `t` (the
audio condition reads only the audio position, not whether the video seek
fired); in every case both positions equal `t` after the tick. -/
theorem dequeued_seek_iff_position_differs (s : AppState) (t : Int)
    (rest : List PyVal) (h : s.queue = PyVal.vint t :: rest) :
    (update_ui s).videoSeek = (if t = s.video.position then none else some t) ∧
    (update_ui s).audioSeek = (if t = s.audio.position then none else some t) ∧
    (update_ui s).state.video.position = t ∧
    (update_ui s).state.audio.position = t := by
  rw [update_ui_cons s (PyVal.vint t) rest t h rfl]
  refine ⟨rfl, rfl, ?_, ?_⟩
  · show (if t = s.video.position then s.video
        else (⟨t, s.video.playing⟩ : PlayerState)).position = t
    by_cases hv : t = s.video.position
    · rw [if_pos hv]; exact hv.symm
    · rw [if_neg hv]
  · show (if t = s.audio.position then s.audio
        else (⟨t, s.audio.playing⟩ : PlayerState)).position = t
    by_cases ha : t = s.audio.position
    · rw [if_pos ha]; exact ha.symm
    · rw [if_neg ha]

/-- C1 witness: video already at 7, audio at 3, dequeue 7 — audio-only
seek despite the video seek not firing. -/
theorem dequeued_seek_iff_position_differs_witness :
    (⟨⟨7, true⟩, ⟨3, true⟩, "Ready", [PyVal.vint 7]⟩ : AppState).queue
        = PyVal.vint 7 :: [] ∧
    ((update_ui ⟨⟨7, true⟩, ⟨3, true⟩, "Ready", [PyVal.vint 7]⟩).videoSeek
        = (if (7 : Int) = 7 then none else some 7) ∧
     (update_ui ⟨⟨7, true⟩, ⟨3, true⟩, "Ready", [PyVal.vint 7]⟩).audioSeek
        = (if (7 : Int) = 3 then none else some 7) ∧
     (update_ui ⟨⟨7, true⟩, ⟨3, true⟩, "Ready", [PyVal.vint 7]⟩).state.video.position = 7 ∧
     (update_ui ⟨⟨7, true⟩, ⟨3, true⟩, "Ready", [PyVal.vint 7]⟩).state.audio.position = 7) :=
  ⟨rfl, dequeued_seek_iff_position_differs
    ⟨⟨7, true⟩, ⟨3, true⟩, "Ready", [PyVal.vint 7]⟩ 7 [] rfl⟩

/-- C6: on a tick that dequeues the integer `t`, the seek to a player is
suppressed exactly when that player's position equals `t` — exact integer
equality, no tolerance window, so any nonzero difference (even 1 ms)
triggers the seek. -/
theorem exact_match_suppresses_seek (s : AppState) (t : Int)
    (rest : List PyVal) (h : s.queue = PyVal.vint t :: rest) :
    ((update_ui s).videoSeek = none ↔ t = s.video.position) ∧
    ((update_ui s).audioSeek = none ↔ t = s.audio.position) := by
  rw [update_ui_cons s (PyVal.vint t) rest t h rfl]
  constructor
  · by_cases hv : t = s.video.position <;> simp [hv]
  · by_cases ha : t = s.audio.position <;> simp [ha]

/-- C6 witness: video at 5000 with 5000 dequeued — video seek suppressed;
audio at 4999 (1 ms off) — audio seek fires. -/
theorem exact_match_suppresses_seek_witness :
    (⟨⟨5000, true⟩, ⟨4999, true⟩, "Ready", [PyVal.vint 5000]⟩ : AppState).queue
        = PyVal.vint 5000 :: [] ∧
    (((update_ui ⟨⟨5000, true⟩, ⟨4999, true⟩, "Ready", [PyVal.vint 5000]⟩).videoSeek
        = none ↔ (5000 : Int) = 5000) ∧
     ((update_ui ⟨⟨5000, true⟩, ⟨4999, true⟩, "Ready", [PyVal.vint 5000]⟩).audioSeek
        = none ↔ (5000 : Int) = 4999)) :=
  ⟨rfl, exact_match_suppresses_seek
    ⟨⟨5000, true⟩, ⟨4999, true⟩, "Ready", [PyVal.vint 5000]⟩ 5000 [] rfl⟩

/-- C9: the tick coerces the dequeued value with `int()` and then compares
and seeks with the result unvalidated: for any value `int()` accepts —
any `t : Int`, negative included, with no non-negativity or range check —
`t` is what `set_time` receives on each player whose position differs. -/
theorem dequeue_coercion_no_validation (s : AppState) (v : PyVal)
    (rest : List PyVal) (t : Int) (hq : s.queue = v :: rest)
    (hv : pyIntOf v = some t) :
    (update_ui s).videoSeek = (if t = s.video.position then none else some t) ∧
    (update_ui s).audioSeek = (if t = s.audio.position then none else some t) ∧
    (update_ui s).errored = false := by
  rw [update_ui_cons s v rest t hq hv]
  exact ⟨rfl, rfl, rfl⟩

/-- C9 witness: a dequeued negative integer (-250) passes straight through
to both seeks. -/
theorem dequeue_coercion_no_validation_witness :
    (⟨⟨0, true⟩, ⟨0, true⟩, "Ready", [PyVal.vint (-250)]⟩ : AppState).queue
        = PyVal.vint (-250) :: [] ∧
    pyIntOf (PyVal.vint (-250)) = some (-250) ∧
    ((update_ui ⟨⟨0, true⟩, ⟨0, true⟩, "Ready", [PyVal.vint (-250)]⟩).videoSeek
        = (if (-250 : Int) = 0 then none else some (-250)) ∧
     (update_ui ⟨⟨0, true⟩, ⟨0, true⟩, "Ready", [PyVal.vint (-250)]⟩).audioSeek
        = (if (-250 : Int) = 0 then none else some (-250)) ∧
     (update_ui ⟨⟨0, true⟩, ⟨0, true⟩, "Ready", [PyVal.vint (-250)]⟩).errored = false) :=
  ⟨rfl, rfl, dequeue_coercion_no_validation
    ⟨⟨0, true⟩, ⟨0, true⟩, "Ready", [PyVal.vint (-250)]⟩ (PyVal.vint (-250))
    [] (-250) rfl rfl⟩

/-- C8: end-to-end over two consecutive ticks: from both players at 0 with
`[5000]` queued, one tick seeks both players to 5000 and empties the queue;
re-queueing 5000 with both players already at 5000, the next tick dequeues
it but issues no further seek to either player. -/
theorem end_to_end_two_ticks :
    (update_ui ⟨⟨0, true⟩, ⟨0, true⟩, "Ready", [PyVal.vint 5000]⟩).videoSeek
        = some 5000 ∧
    (update_ui ⟨⟨0, true⟩, ⟨0, true⟩, "Ready", [PyVal.vint 5000]⟩).audioSeek
        = some 5000 ∧
    (update_ui ⟨⟨0, true⟩, ⟨0, true⟩, "Ready", [PyVal.vint 5000]⟩).state.video.position
        = 5000 ∧
    (update_ui ⟨⟨0, true⟩, ⟨0, true⟩, "Ready", [PyVal.vint 5000]⟩).state.audio.position
        = 5000 ∧
    (update_ui ⟨⟨0, true⟩, ⟨0, true⟩, "Ready", [PyVal.vint 5000]⟩).state.queue = [] ∧
    (update_ui { (update_ui ⟨⟨0, true⟩, ⟨0, true⟩, "Ready", [PyVal.vint 5000]⟩).state
        with queue := [PyVal.vint 5000] }).videoSeek = none ∧
    (update_ui { (update_ui ⟨⟨0, true⟩, ⟨0, true⟩, "Ready", [PyVal.vint 5000]⟩).state
        with queue := [PyVal.vint 5000] }).audioSeek = none ∧
    (update_ui { (update_ui ⟨⟨0, true⟩, ⟨0, true⟩, "Ready", [PyVal.vint 5000]⟩).state
        with queue := [PyVal.vint 5000] }).state.video.position = 5000 ∧
    (update_ui { (update_ui ⟨⟨0, true⟩, ⟨0, true⟩, "Ready", [PyVal.vint 5000]⟩).state
        with queue := [PyVal.vint 5000] }).state.audio.position = 5000 ∧
    (update_ui { (update_ui ⟨⟨0, true⟩, ⟨0, true⟩, "Ready", [PyVal.vint 5000]⟩).state
        with queue := [PyVal.vint 5000] }).state.queue = [] := by
  decide

/-- C4: if either file dialog is cancelled (returns the empty path) —
including cancelling the audio dialog after a video file was chosen —
`open_files` returns before any mutation: the whole player state (bound
media, surfaces, window title, play state) is exactly what it was. -/
theorem cancelled_dialog_aborts_open (host : HostOS) (winId : Int)
    (meta0 : String → Option String) (fv fa : String) (s : MediaState)
    (h : fv = "" ∨ fa = "") :
    open_files host winId meta0 fv fa s = s :=
  open_files_cancelled host winId meta0 fv fa s h

/-- C4 witness: a video file was chosen but the audio dialog is cancelled;
starting from the fresh state, both handles stay unbound and unplayed. -/
theorem cancelled_dialog_aborts_open_witness :
    (("" : String) = "" ∨ ("" : String) = "") ∧
    ("/home/u/v.mp4" = "" ∨ ("" : String) = "") ∧
    open_files HostOS.linux 77 (fun _ => some "A Title") "/home/u/v.mp4" ""
      initMediaState = initMediaState :=
  ⟨Or.inl rfl, Or.inr rfl,
    cancelled_dialog_aborts_open HostOS.linux 77 (fun _ => some "A Title")
      "/home/u/v.mp4" "" initMediaState (Or.inr rfl)⟩

/-- C7: with both dialogs returning non-empty paths (on any of the three
dispatched platforms), `open_files` binds each path to its player, parses
both media, sets the window title from the video title metadata, attaches
both players to the rendering surface, and plays both; and conversely, the
title change and playback start happen on no cancelled run. -/
theorem successful_open_effects (host : HostOS) (winId : Int)
    (meta0 : String → Option String) (fv fa : String) (s : MediaState)
    (hv : fv ≠ "") (ha : fa ≠ "") (hos : host ≠ HostOS.other) :
    (open_files host winId meta0 fv fa s).video_media = some fv ∧
    (open_files host winId meta0 fv fa s).audio_media = some fa ∧
    (open_files host winId meta0 fv fa s).video_parsed = true ∧
    (open_files host winId meta0 fv fa s).audio_parsed = true ∧
    (open_files host winId meta0 fv fa s).window_title = pyFormat (meta0 fv) ∧
    (open_files host winId meta0 fv fa s).video_surface = some winId ∧
    (open_files host winId meta0 fv fa s).audio_surface = some winId ∧
    (open_files host winId meta0 fv fa s).video_started = true ∧
    (open_files host winId meta0 fv fa s).audio_started = true ∧
    (∀ gv ga : String, gv = "" ∨ ga = "" →
      open_files host winId meta0 gv ga s = s) := by
  cases host with
  | other => exact absurd rfl hos
  | linux =>
      refine ⟨?_, ?_, ?_, ?_, ?_, ?_, ?_, ?_, ?_,
        fun gv ga hg => open_files_cancelled _ _ _ _ _ _ hg⟩ <;>
        simp [open_files, hv, ha]
  | windows =>
      refine ⟨?_, ?_, ?_, ?_, ?_, ?_, ?_, ?_, ?_,
        fun gv ga hg => open_files_cancelled _ _ _ _ _ _ hg⟩ <;>
        simp [open_files, hv, ha]
  | darwin =>
      refine ⟨?_, ?_, ?_, ?_, ?_, ?_, ?_, ?_, ?_,
        fun gv ga hg => open_files_cancelled _ _ _ _ _ _ hg⟩ <;>
        simp [open_files, hv, ha]

/-- C7 witness: a concrete successful open on Linux from the fresh state. -/
theorem successful_open_effects_witness :
    ("/home/u/v.mp4" : String) ≠ "" ∧ ("/home/u/a.mp3" : String) ≠ "" ∧
    HostOS.linux ≠ HostOS.other ∧
    ((open_files HostOS.linux 77 (fun _ => some "A Title") "/home/u/v.mp4"
        "/home/u/a.mp3" initMediaState).video_media = some "/home/u/v.mp4" ∧
     (open_files HostOS.linux 77 (fun _ => some "A Title") "/home/u/v.mp4"
        "/home/u/a.mp3" initMediaState).audio_media = some "/home/u/a.mp3" ∧
     (open_files HostOS.linux 77 (fun _ => some "A Title") "/home/u/v.mp4"
        "/home/u/a.mp3" initMediaState).video_parsed = true ∧
     (open_files HostOS.linux 77 (fun _ => some "A Title") "/home/u/v.mp4"
        "/home/u/a.mp3" initMediaState).audio_parsed = true ∧
     (open_files HostOS.linux 77 (fun _ => some "A Title") "/home/u/v.mp4"
        "/home/u/a.mp3" initMediaState).window_title
        = pyFormat ((fun _ => some "A Title") "/home/u/v.mp4") ∧
     (open_files HostOS.linux 77 (fun _ => some "A Title") "/home/u/v.mp4"
        "/home/u/a.mp3" initMediaState).video_surface = some 77 ∧
     (open_files HostOS.linux 77 (fun _ => some "A Title") "/home/u/v.mp4"
        "/home/u/a.mp3" initMediaState).audio_surface = some 77 ∧
     (open_files HostOS.linux 77 (fun _ => some "A Title") "/home/u/v.mp4"
        "/home/u/a.mp3" initMediaState).video_started = true ∧
     (open_files HostOS.linux 77 (fun _ => some "A Title") "/home/u/v.mp4"
        "/home/u/a.mp3" initMediaState).audio_started = true ∧
     (∀ gv ga : String, gv = "" ∨ ga = "" →
        open_files HostOS.linux 77 (fun _ => some "A Title") gv ga
          initMediaState = initMediaState)) :=
  ⟨by decide, by decide, by decide,
    successful_open_effects HostOS.linux 77 (fun _ => some "A Title")
      "/home/u/v.mp4" "/home/u/a.mp3" initMediaState
      (by decide) (by decide) (by decide)⟩

end MiniPlayer
